import Mathlib

/-!
# LocusZoom `DataLayer`: state tracking, axis extents and tool tip bookkeeping

A shallow embedding of `assets/js/app/DataLayer.js`.

* Method arguments (`status`, `id`, `toggle`, `dimension`, `selection`) and tool tip
  directives are arbitrary JavaScript values (`JSVal`), because the source inspects
  them with `typeof`, truthiness and `indexOf`.
* The layer itself is a record: layout, state and data have the shapes the library
  gives them. A layout entry is either absent (`none`, JavaScript `undefined`) or a
  value of its documented type; ill-typed entries (a `null` tool tip, a string used
  as a buffer, ...) are outside the model.
* A number is a `JSNumber`: a finite value or an infinity; `none : JSNum` stands for
  a value for which `isNaN` answers `true` (`undefined` or `NaN`). The order of
  `JSNumber` is the order `<`, `>` compare by. The arithmetic of the language
  (`-`, `+`, `*` on doubles, with its rounding and overflow) is not computed here: it
  is supplied by a `Host`, and every theorem holds for whatever the host computes.
* The DOM (d3 selections, CSS classes, tool tip `div`s) is not part of the layer
  record. What the page answers to `d3.select(selector)` (a thrown error for a
  selector it rejects, the datum of the element found, or an empty selection) and the
  event in `d3.event` are supplied by the `Host`.
* A thrown exception is `Except.error` with the message; `TypeError`s raised by the
  JavaScript runtime carry the message `TypeError`. `toggleElementStatus`,
  `toggleAllElementStatus`, `getAxisExtent` and `destroyTooltip` also return the layer
  as it is after the call, thrown or not; the other methods return the layer only
  when they return normally.
-/

namespace LocusZoom

/-! ## JavaScript values -/

/-- JavaScript values as far as the data layer inspects them. The properties of an
object are listed in the order `for ... in` enumerates them. -/
inductive JSVal where
  | undefined
  | null
  | bool (b : Bool)
  | num (q : ℚ)
  | str (s : String)
  | arr (items : List JSVal)
  | obj (props : List (String × JSVal))

namespace JSVal

/-- The `typeof` operator. -/
def typeof : JSVal → String
  | .undefined => "undefined"
  | .null => "object"
  | .bool _ => "boolean"
  | .num _ => "number"
  | .str _ => "string"
  | .arr _ => "object"
  | .obj _ => "object"

/-- ToBoolean: the values that count as true in a condition. -/
def truthy : JSVal → Bool
  | .undefined => false
  | .null => false
  | .bool b => b
  | .num q => decide (q ≠ 0)
  | .str s => decide (s ≠ "")
  | .arr _ => true
  | .obj _ => true

/-- The test `v == null`, true for `null` and `undefined` only. -/
def isNullish : JSVal → Bool
  | .undefined => true
  | .null => true
  | _ => false

/-- The operator `a && b`. -/
def and (a b : JSVal) : JSVal := if a.truthy then b else a

/-- The operator `a || b`. -/
def or (a b : JSVal) : JSVal := if a.truthy then a else b

/-- The operator `!a`. -/
def not (a : JSVal) : JSVal := .bool (!a.truthy)

/-- Comparison of a value with a string literal (`v == "lit"`, `v === "lit"`) for the
values that reach such a test in the data layer: strings and `undefined`. -/
def eqStr (v : JSVal) (lit : String) : Bool :=
  match v with
  | .str s => s == lit
  | _ => false

end JSVal

/-- `Array.prototype.indexOf` on an array of strings: strict equality, so only a
string can be found; `-1` when absent. -/
def indexOf (xs : List String) (v : JSVal) : Int :=
  match v with
  | .str s => if s ∈ xs then (xs.indexOf s : Int) else -1
  | _ => -1

/-- `xs.splice(idx, 1)` for an index `idx ≥ 0`: remove the entry at `idx`, if any. -/
def splice1 (xs : List String) (idx : Int) : List String :=
  xs.eraseIdx idx.toNat

/-- `s.replace(/\W/g, "")`: drop every character outside `[A-Za-z0-9_]`. -/
def replaceNonWord (s : String) : String :=
  String.mk (s.toList.filter (fun c => c.isAlphanum || c == '_'))

/-! ## Numbers -/

/-- A number other than `NaN`: a finite value or one of the infinities. The two zeros
of the language compare equal and are one value here. -/
inductive JSNumber where
  | negInf
  | fin (q : ℚ)
  | posInf

/-- The place of a number on the extended rational line. -/
def JSNumber.toExt : JSNumber → WithBot (WithTop ℚ)
  | .negInf => ⊥
  | .fin q => ((q : WithTop ℚ) : WithBot (WithTop ℚ))
  | .posInf => ((⊤ : WithTop ℚ) : WithBot (WithTop ℚ))

/-- The comparison of numbers by `<`, `<=`, `>`, `>=`. -/
instance : LinearOrder JSNumber :=
  LinearOrder.lift' JSNumber.toExt (fun a b h => by
    cases a <;> cases b <;> simp_all [JSNumber.toExt])

/-- Numerals denote finite numbers. -/
instance (n : Nat) : OfNat JSNumber n := ⟨.fin n⟩

/-- A numeric slot: `some x` is the number `x`; `none` is a value for which `isNaN`
is true (`undefined`, `NaN`). -/
abbrev JSNum := Option JSNumber

/-- The global `isNaN`. -/
def isNaN (v : JSNum) : Bool := v.isNone

/-- Second loop of `d3.extent`: `if (a > b) a = b; if (c < b) c = b;`, where a
comparison with `NaN` is false. -/
def d3_extent_step (ac : JSNumber × JSNumber) (v : JSNum) : JSNumber × JSNumber :=
  match v with
  | none => ac
  | some b => (if ac.1 > b then b else ac.1, if ac.2 < b then b else ac.2)

/-- `d3.extent(array)` of d3 version 3: the first loop skips to the first value `b`
with `b >= b`, the second loop folds the rest; `[undefined, undefined]` when there is
no such value. -/
def d3_extent : List JSNum → JSNum × JSNum
  | [] => (none, none)
  | none :: rest => d3_extent rest
  | some b :: rest =>
    let ac := rest.foldl d3_extent_step (b, b)
    (some ac.1, some ac.2)

/-! ## The layer record -/

/-- A value of a data row: a number or a string. -/
inductive FieldVal where
  | num (x : JSNumber)
  | str (s : String)

/-- A data row (also the datum bound to a DOM element): field name to value. -/
abbrev Element := List (String × FieldVal)

/-- Property read `d[field]`. -/
def Element.get (d : Element) (field : String) : Option FieldVal :=
  d.lookup field

/-- An entry `layout.x_axis` / `layout.y_axis`. -/
structure AxisLayout where
  field : Option String := none
  floor : JSNum := none
  ceiling : JSNum := none
  lower_buffer : JSNum := none
  upper_buffer : JSNum := none
  /-- `none` when `typeof min_extent` is not `"object"`; otherwise the entries
  `min_extent[0]` and `min_extent[1]`. -/
  min_extent : Option (JSNum × JSNum) := none

/-- An entry `layout.tooltip` that is an object, with its directives
`layout.tooltip.show` (here `show_`) and `layout.tooltip.hide`. -/
structure TooltipLayout where
  show_ : JSVal := .undefined
  hide : JSVal := .undefined

/-- The values of `layout.selectable`: `false`, `"one"`, `"multiple"`, or some other
true value. -/
inductive Selectable where
  | off
  | one
  | multiple
  | other

/-- The layout of a layer. `tooltip` is `none` when `typeof layout.tooltip` is not
`"object"` (the default is `false`). -/
structure Layout where
  type : String := ""
  id_field : Option String := none
  x_axis : Option AxisLayout := some {}
  y_axis : Option AxisLayout := some {}
  selectable : Selectable := .off
  tooltip : Option TooltipLayout := none
  hover_element : Option String := none

/-- The view state seen by the layer: `state.start`, `state.end` and the record
`state[state_id]` with its status arrays (`none`: the array is not defined). -/
structure State where
  start : JSNum := none
  end_ : JSNum := none
  highlighted : Option (List String) := none
  selected : Option (List String) := none

/-- A record of `this.tooltips` (the DOM handles `selector` and `arrow` left out). -/
structure Tooltip where
  data : Element
  closed : Bool

/-- A data layer: `this.id`, `this.parent.id`, `this.parent.parent.id`, `this.layout`,
`this.state`, `this.data`, `this.tooltips` (keys in enumeration order). -/
structure DataLayer where
  id : String := ""
  panel_id : String := ""
  plot_id : String := ""
  layout : Layout := {}
  state : State := {}
  data : List Element := []
  tooltips : List (String × Tooltip) := []

/-- What the layer needs from outside this file. -/
structure Host where
  /-- The number a string converts to under unary plus (`none`: `NaN`). -/
  stringToNumber : String → JSNum
  /-- The difference `x - y` of two numbers as the language computes it. -/
  sub : JSNumber → JSNumber → JSNum
  /-- The sum `x + y` of two numbers as the language computes it. -/
  add : JSNumber → JSNumber → JSNum
  /-- The product `x * y` of two numbers as the language computes it. -/
  mul : JSNumber → JSNumber → JSNum
  /-- The call `d3.select(selector)` on a selector string: the message thrown when the
  page rejects the selector, else the datum of the element found, `none` when the
  selection is empty. -/
  select : String → Except String (Option Element)
  /-- The value of `d3.event`: `pageX` and `pageY` of the event in progress, `none`
  when there is no event (`null`). -/
  event : Option (JSNum × JSNum)
  /-- The method `uncloseTooltip`, which this file calls and does not define. -/
  uncloseTooltip : DataLayer → String → Except String DataLayer

/-- The operator `a - b`: `NaN` as soon as an operand is. -/
def Host.minus (host : Host) (a b : JSNum) : JSNum :=
  match a, b with
  | some x, some y => host.sub x y
  | _, _ => none

/-- The operator `a + b` on numeric slots: `NaN` as soon as an operand is. -/
def Host.plus (host : Host) (a b : JSNum) : JSNum :=
  match a, b with
  | some x, some y => host.add x y
  | _, _ => none

/-- The operator `a * b`: `NaN` as soon as an operand is. -/
def Host.times (host : Host) (a b : JSNum) : JSNum :=
  match a, b with
  | some x, some y => host.mul x y
  | _, _ => none

/-- Message of an exception raised by the runtime itself. -/
def TypeError : String := "TypeError"

/-- Read `this.state[this.state_id][status]`. -/
def State.get (st : State) (status : String) : Option (List String) :=
  if status = "highlighted" then st.highlighted
  else if status = "selected" then st.selected
  else none

/-- Store an array in `this.state[this.state_id][status]`. -/
def State.set (st : State) (status : String) (xs : List String) : State :=
  if status = "highlighted" then { st with highlighted := some xs }
  else if status = "selected" then { st with selected := some xs }
  else st

namespace DataLayer

/-- `getBaseId`. -/
def getBaseId (self : DataLayer) : String :=
  self.plot_id ++ "." ++ self.panel_id ++ "." ++ self.id

/-- `getElementId`: `element[this.layout.id_field].replace(/\W/g, "")` after the base
id; a `TypeError` when the id field of the element is not a string. -/
def getElementId (self : DataLayer) (element : Element) : Except String String :=
  match element.get (self.layout.id_field.getD "undefined") with
  | some (.str s) => .ok (self.getBaseId ++ "." ++ replaceNonWord s)
  | _ => .error TypeError

/-! ## Tool tip show/hide logic -/

end DataLayer

/-- The object `element` built by `showOrHideTooltip`. -/
structure StatusFlags where
  highlighted : Bool
  unhighlighted : Bool
  selected : Bool
  unselected : Bool

/-- Property read `element[key]` on the flags object. -/
def StatusFlags.get (element : StatusFlags) (key : JSVal) : JSVal :=
  match key with
  | .str "highlighted" => .bool element.highlighted
  | .str "unhighlighted" => .bool element.unhighlighted
  | .str "selected" => .bool element.selected
  | .str "unselected" => .bool element.unselected
  | _ => .undefined

/-- The callback handed to `directive.reduce` in `resolveStatus`. -/
def reduceStep (operator previousValue currentValue : JSVal) : JSVal :=
  if operator.eqStr "and" then previousValue.and currentValue
  else if operator.eqStr "or" then previousValue.or currentValue
  else .null

/-- The branch of `resolveStatus` guarded by `typeof directive == "array"`. -/
def resolveArray (element : StatusFlags) (directive operator : JSVal) : Except String JSVal :=
  let operator := if operator.typeof == "undefined" then JSVal.str "and" else operator
  match directive with
  | .arr [key] => .ok (element.get key)
  | .arr (first :: rest) => .ok (rest.foldl (reduceStep operator) first)
  | _ => .error TypeError

/-- One round of the loop `for (var sub_operator in directive)` once `sub_status` is
known. -/
def combineStatus (operator status sub_status : JSVal) : JSVal :=
  if status.isNullish then sub_status
  else if operator.eqStr "and" then status.and sub_status
  else if operator.eqStr "or" then status.or sub_status
  else status

mutual
/-- The local function `resolveStatus(element, directive, operator)`; `element` is
always the flags object, so its guard on `element` never fires. -/
def resolveStatus (element : StatusFlags) (directive operator : JSVal) : Except String JSVal :=
  if directive.typeof == "object" then
    match directive with
    | .arr items => resolveItems element operator items 0 .null
    | .obj props => resolveProps element operator props .null
    | _ => .ok .null
  else if directive.typeof == "array" then
    resolveArray element directive operator
  else
    .ok .null
termination_by structural directive
/-- The loop of `resolveStatus` over the indices `"0"`, `"1"`, ... of an array. -/
def resolveItems (element : StatusFlags) (operator : JSVal) (items : List JSVal) (i : Nat)
    (status : JSVal) : Except String JSVal :=
  match items with
  | [] => .ok status
  | d :: rest =>
    match resolveStatus element d (.str (toString i)) with
    | .error e => .error e
    | .ok sub_status => resolveItems element operator rest (i + 1) (combineStatus operator status sub_status)
termination_by structural items
/-- The loop of `resolveStatus` over the keys of an object. -/
def resolveProps (element : StatusFlags) (operator : JSVal) (props : List (String × JSVal))
    (status : JSVal) : Except String JSVal :=
  match props with
  | [] => .ok status
  | (sub_operator, d) :: rest =>
    match resolveStatus element d (.str sub_operator) with
    | .error e => .error e
    | .ok sub_status => resolveProps element operator rest (combineStatus operator status sub_status)
termination_by structural props
end

/-- The directive `showOrHideTooltip` derives from `layout.tooltip.show` (or `hide`). -/
def toDirective (v : JSVal) : JSVal :=
  if v.typeof == "string" then .obj [("and", .arr [v])]
  else if v.typeof == "object" then v
  else .obj []

namespace DataLayer

/-- The value of the local `show_tooltip` computed by `showOrHideTooltip(id)`; `none`
when the method returns before computing it. -/
def show_tooltip (self : DataLayer) (id : JSVal) : Except String (Option JSVal) :=
  match self.layout.tooltip with
  | none => .ok none
  | some tooltip =>
    let show_directive := toDirective tooltip.show_
    let hide_directive := toDirective tooltip.hide
    match self.state.highlighted, self.state.selected with
    | some highlighted, some selected =>
      let is_highlighted := indexOf highlighted id != -1
      let is_selected := indexOf selected id != -1
      let element : StatusFlags :=
        { highlighted := is_highlighted, unhighlighted := !is_highlighted,
          selected := is_selected, unselected := !is_selected }
      match resolveStatus element show_directive .undefined with
      | .error e => .error e
      | .ok show_resolved =>
        match resolveStatus element hide_directive .undefined with
        | .error e => .error e
        | .ok hide_resolved => .ok (some (show_resolved.and hide_resolved.not))
    | _, _ => .error TypeError

/-- `showOrHideTooltip(id)`: computes `show_tooltip` and leaves the layer as it is. -/
def showOrHideTooltip (self : DataLayer) (id : JSVal) : Except String DataLayer :=
  match self.show_tooltip id with
  | .error e => .error e
  | .ok _ => .ok self

/-! ## Element status -/

/-- The id of the DOM element of an element id: `id`, followed by
`"_" + this.layout.hover_element` when the layout has a hover element. -/
def hoverId (self : DataLayer) (id : String) : String :=
  match self.layout.hover_element with
  | some hover_element => if hover_element != "" then id ++ "_" ++ hover_element else id
  | none => id

/-- `toggleElementStatus(status, id, toggle)`: the thrown message, if any, and the
layer after the call. The call `d3.select("#" + element_id).classed(attr_class, toggle)`
comes before the update of the state array; it throws when the page rejects the
selector and otherwise only sets a CSS class. -/
def toggleElementStatus (host : Host) (self : DataLayer) (status id toggle : JSVal) :
    Except String Unit × DataLayer :=
  if status.typeof == "undefined" || indexOf ["highlighted", "selected"] status == -1 then
    (.ok (), self)
  else if id.typeof != "string" then (.ok (), self)
  else
    let toggle := if toggle.typeof == "undefined" then JSVal.bool true else toggle
    match status, id with
    | .str status, .str id_str =>
      let element_id := self.hoverId id_str
      match host.select ("#" ++ element_id) with
      | .error e => (.error e, self)
      | .ok _ =>
        match self.state.get status with
        | none => (.error TypeError, self)
        | some xs =>
          let element_status_idx := indexOf xs id
          let xs := if toggle.truthy && element_status_idx == -1 then xs ++ [id_str] else xs
          let xs :=
            if !toggle.truthy && element_status_idx != -1 then splice1 xs element_status_idx
            else xs
          let after : DataLayer := { self with state := self.state.set status xs }
          match after.showOrHideTooltip id with
          | .error e => (.error e, after)
          | .ok _ => (.ok (), after)
    | _, _ => (.ok (), self)

/-- `array.forEach(callback)` for a callback that changes the layer: a throw ends the
loop and leaves the layer as the calls made so far have left it. -/
def forEach {α : Type} (callback : DataLayer → α → Except String Unit × DataLayer) :
    List α → DataLayer → Except String Unit × DataLayer
  | [], layer => (.ok (), layer)
  | x :: rest, layer =>
    match callback layer x with
    | (.error e, after) => (.error e, after)
    | (.ok _, after) => forEach callback rest after

/-- The callback of `this.data.forEach` in `toggleAllElementStatus`. -/
def toggleAllCallback (host : Host) (status : String) (layer : DataLayer) (element : Element) :
    Except String Unit × DataLayer :=
  match layer.getElementId element with
  | .error e => (.error e, layer)
  | .ok id =>
    match layer.state.get status with
    | none => (.error TypeError, layer)
    | some xs =>
      if indexOf xs (.str id) == -1 then
        layer.toggleElementStatus host (.str status) (.str id) (.bool true)
      else (.ok (), layer)

/-- The callback of `status_ids.forEach` in `toggleAllElementStatus`. -/
def untoggleAllCallback (host : Host) (status : String) (layer : DataLayer) (id : String) :
    Except String Unit × DataLayer :=
  layer.toggleElementStatus host (.str status) (.str id) (.bool false)

/-- `toggleAllElementStatus(status, toggle)`: the thrown message, if any, and the
layer after the call. -/
def toggleAllElementStatus (host : Host) (self : DataLayer) (status toggle : JSVal) :
    Except String Unit × DataLayer :=
  if status.typeof == "undefined" || indexOf ["highlighted", "selected"] status == -1 then
    (.ok (), self)
  else
    let toggle := if toggle.typeof == "undefined" then JSVal.bool true else toggle
    match status with
    | .str st =>
      if toggle.truthy then
        forEach (toggleAllCallback host st) self.data self
      else
        match self.state.get st with
        | none => (.error TypeError, self)
        | some status_ids => forEach (untoggleAllCallback host st) status_ids self
    | _ => (.ok (), self)

/-- `highlightElement(id, toggle)`. -/
def highlightElement (host : Host) (self : DataLayer) (id toggle : JSVal) :
    Except String Unit × DataLayer :=
  self.toggleElementStatus host (.str "highlighted") id toggle

/-- `unhighlightElement(id)`. -/
def unhighlightElement (host : Host) (self : DataLayer) (id : JSVal) :
    Except String Unit × DataLayer :=
  self.highlightElement host id (.bool false)

/-- `highlightAllElements(toggle)`. -/
def highlightAllElements (host : Host) (self : DataLayer) (toggle : JSVal) :
    Except String Unit × DataLayer :=
  self.toggleAllElementStatus host (.str "highlighted") toggle

/-- `unhighlightAllElements()`. -/
def unhighlightAllElements (host : Host) (self : DataLayer) : Except String Unit × DataLayer :=
  self.highlightAllElements host (.bool false)

/-- `selectElement(id, toggle)`. -/
def selectElement (host : Host) (self : DataLayer) (id toggle : JSVal) :
    Except String Unit × DataLayer :=
  self.toggleElementStatus host (.str "selected") id toggle

/-- `unselectElement(id)`. -/
def unselectElement (host : Host) (self : DataLayer) (id : JSVal) :
    Except String Unit × DataLayer :=
  self.selectElement host id (.bool false)

/-- `selectAllElements(toggle)`. -/
def selectAllElements (host : Host) (self : DataLayer) (toggle : JSVal) :
    Except String Unit × DataLayer :=
  self.toggleAllElementStatus host (.str "selected") toggle

/-- `unselectAllElements()`. -/
def unselectAllElements (host : Host) (self : DataLayer) : Except String Unit × DataLayer :=
  self.selectAllElements host (.bool false)

/-! ## Axis extents -/

end DataLayer

/-- Unary plus on a row value, `+d[field]`. -/
def toNumber (host : Host) : Option FieldVal → JSNum
  | none => none
  | some (.num x) => some x
  | some (.str s) => host.stringToNumber s

namespace DataLayer

/-- The part of `getAxisExtent` that generates the extent from the data set, entered
once the axis has a field and the layer has data. -/
def dataExtent (host : Host) (self : DataLayer) (axis : AxisLayout) (field : String) : List JSNum :=
  let extent := d3_extent (self.data.map (fun d => toNumber host (d.get field)))
  let original_extent_span := host.minus extent.2 extent.1
  let lower : List JSNum :=
    if !isNaN axis.lower_buffer then
      [host.minus extent.1 (host.times original_extent_span axis.lower_buffer)]
    else []
  let upper : List JSNum :=
    if !isNaN axis.upper_buffer then
      [host.plus extent.2 (host.times original_extent_span axis.upper_buffer)]
    else []
  let minimum : List JSNum :=
    match axis.min_extent with
    | some (lo, hi) => if !isNaN lo && !isNaN hi then [lo, hi] else []
    | none => []
  let extent := d3_extent ([extent.1, extent.2] ++ lower ++ upper ++ minimum)
  let extent0 := if !isNaN axis.floor then axis.floor else extent.1
  let extent1 := if !isNaN axis.ceiling then axis.ceiling else extent.2
  [extent0, extent1]

/-- The end of `getAxisExtent`: the region of the state for the x axis, else the empty
array. -/
def stateExtent (self : DataLayer) (dimension : JSVal) : List JSNum :=
  if dimension.eqStr "x" && !isNaN self.state.start && !isNaN self.state.end_ then
    [self.state.start, self.state.end_]
  else []

/-- `getAxisExtent(dimension)`: the returned array or the thrown message, and the
layer after the call. -/
def getAxisExtent (host : Host) (self : DataLayer) (dimension : JSVal) :
    Except String (List JSNum) × DataLayer :=
  if indexOf ["x", "y"] dimension == -1 then
    (.error "Invalid dimension identifier passed to LocusZoom.DataLayer.getAxisExtent()", self)
  else
    match (if dimension.eqStr "x" then self.layout.x_axis else self.layout.y_axis) with
    | none => (.error TypeError, self)
    | some axis =>
      if !isNaN axis.floor && !isNaN axis.ceiling then
        (.ok [axis.floor, axis.ceiling], self)
      else
        match axis.field with
        | some field =>
          if field != "" && self.data.length != 0 then
            (.ok (self.dataExtent host axis field), self)
          else (.ok (self.stateExtent dimension), self)
        | none => (.ok (self.stateExtent dimension), self)

/-! ## Tool tips -/

end DataLayer

/-- The names every object inherits from `Object.prototype`; `this.tooltips[name]`
is a true value for each of them although the map has no record of that name. -/
def inheritedKeys : List String :=
  ["constructor", "__proto__", "hasOwnProperty", "isPrototypeOf", "propertyIsEnumerable",
   "toLocaleString", "toString", "valueOf", "__defineGetter__", "__defineSetter__",
   "__lookupGetter__", "__lookupSetter__"]

/-- What the property read `this.tooltips[id]` finds. -/
inductive Slot where
  | own (record : Tooltip)
  | inherited
  | absent

namespace DataLayer

/-- Property read `this.tooltips[id]`. -/
def tooltipAt (self : DataLayer) (id : String) : Slot :=
  match self.tooltips.lookup id with
  | some record => .own record
  | none => if id ∈ inheritedKeys then .inherited else .absent

/-- `positionTooltip(id)`: reads `this.tooltips[id].selector`, which has a `style`
method only for a record of the map, and `d3.event.pageX`, which needs an event in
progress; apart from that it only styles DOM nodes. -/
def positionTooltip (host : Host) (self : DataLayer) (id : JSVal) : Except String DataLayer :=
  match id with
  | .str key =>
    match self.tooltipAt key with
    | .own _ =>
      match host.event with
      | none => .error TypeError
      | some _ => .ok self
    | _ => .error TypeError
  | _ => .error "Unable to position tooltip: id is not a string"

/-- `updateTooltip(d, id)`: rewrites the HTML of the tool tip, then positions it. -/
def updateTooltip (host : Host) (self : DataLayer) (_d : Element) (id : String) :
    Except String DataLayer :=
  match self.tooltipAt id with
  | .own _ => self.positionTooltip host (.str id)
  | _ => .error TypeError

/-- `createTooltip(d, id)`. -/
def createTooltip (host : Host) (self : DataLayer) (d : Element) (id : JSVal) :
    Except String DataLayer :=
  match self.layout.tooltip with
  | none => .error ("DataLayer [" ++ self.id ++ "] layout does not define a tooltip")
  | some _ =>
    match id with
    | .str key =>
      match self.tooltipAt key with
      | .absent =>
        updateTooltip host
          { self with tooltips := self.tooltips ++ [(key, { data := d, closed := false })] } d key
      | _ => self.positionTooltip host id
    | _ => .error "Unable to create tooltip: id is not a string"

/-- `destroyTooltip(id)`: the thrown message, if any, and the layer after the call. -/
def destroyTooltip (self : DataLayer) (id : JSVal) : Except String Unit × DataLayer :=
  match id with
  | .str key =>
    match self.tooltips.lookup key with
    | some _ => (.ok (), { self with tooltips := self.tooltips.filter (fun kv => kv.1 != key) })
    | none => (.ok (), self)
  | _ => (.error "Unable to destroy tooltip: id is not a string", self)

/-- One round of the loop `for (var id in this.tooltips)` of `destroyAllTooltips`. -/
def destroyAllStep (layer : DataLayer) (id : String) : Except String DataLayer :=
  match layer.tooltips.lookup id with
  | some _ =>
    match layer.destroyTooltip (.str id) with
    | (.error e, _) => .error e
    | (.ok _, after) => .ok after
  | none => .ok layer

/-- `destroyAllTooltips()`: `for (var id in this.tooltips)` visits the keys present at
the start, leaving out a key that was deleted before its turn. -/
def destroyAllTooltips (self : DataLayer) : Except String DataLayer :=
  (self.tooltips.map (fun kv => kv.1)).foldlM destroyAllStep self

/-! ## Selectability and tool tips of a selection -/

/-- The id the listeners of `enableTooltips` compute for a datum:
`this.parent.id + "_" + d[this.layout.id_field].replace(/\W/g, "")`. -/
def listenerId (self : DataLayer) (d : Element) : Except String String :=
  match d.get (self.layout.id_field.getD "undefined") with
  | some (.str s) => .ok (self.panel_id ++ "_" ++ replaceNonWord s)
  | _ => .error TypeError

/-- The statement `d3.select("#" + select_id).attr("class", attr_class)` of the
listeners: it throws when the page rejects the selector and otherwise only sets a
CSS class. -/
def setClass (host : Host) (self : DataLayer) (id : String) : Except String Unit :=
  match host.select ("#" ++ self.hoverId id) with
  | .error e => .error e
  | .ok _ => .ok ()

/-- The `mouseover` listener bound by `enableTooltips`. -/
def onMouseover (host : Host) (self : DataLayer) (d : Element) : Except String DataLayer :=
  match self.listenerId d with
  | .error e => .error e
  | .ok id =>
    match self.state.selected with
    | none => .error TypeError
    | some selected =>
      if indexOf selected (.str id) == -1 then
        match self.setClass host id with
        | .error e => .error e
        | .ok _ =>
          match self.layout.tooltip with
          | some _ => self.createTooltip host d (.str id)
          | none => .ok self
      else .ok self

/-- The `mouseout` listener bound by `enableTooltips`. -/
def onMouseout (host : Host) (self : DataLayer) (d : Element) : Except String DataLayer :=
  match self.listenerId d with
  | .error e => .error e
  | .ok id =>
    match self.state.selected with
    | none => .error TypeError
    | some selected =>
      if indexOf selected (.str id) == -1 then
        match self.setClass host id with
        | .error e => .error e
        | .ok _ =>
          match self.layout.tooltip with
          | some _ =>
            match self.destroyTooltip (.str id) with
            | (.error e, _) => .error e
            | (.ok _, after) => .ok after
          | none => .ok self
      else .ok self

/-- The `click` listener bound by `enableTooltips` (the final `this.onUpdate()` of the
parent panel left out). The flag of the result tells whether the listener has stored
a fresh array in `state[state_id].selected` (the statement `selected = []`) instead
of changing the array that was there. -/
def onClick (host : Host) (self : DataLayer) (d : Element) : Except String (DataLayer × Bool) :=
  match self.listenerId d with
  | .error e => .error e
  | .ok id =>
    match self.state.selected with
    | none => .error TypeError
    | some selected =>
      let selected_idx := indexOf selected (.str id)
      if selected_idx != -1 then
        match self.layout.selectable, self.tooltipAt id with
        | .multiple, .own { data := _, closed := true } =>
          match host.uncloseTooltip self id with
          | .error e => .error e
          | .ok layer => .ok (layer, false)
        | _, _ =>
          match self.setClass host id with
          | .error e => .error e
          | .ok _ =>
            .ok ({ self with
                   state := { self.state with selected := some (splice1 selected selected_idx) } },
              false)
      else
        match self.layout.selectable, selected with
        | .one, first :: _ =>
          match self.destroyTooltip (.str first) with
          | (.error e, _) => .error e
          | (.ok _, layer) =>
            match layer.setClass host first with
            | .error e => .error e
            | .ok _ =>
              match layer.setClass host id with
              | .error e => .error e
              | .ok _ =>
                .ok ({ layer with state := { layer.state with selected := some [id] } }, true)
        | _, _ =>
          match self.setClass host id with
          | .error e => .error e
          | .ok _ =>
            .ok ({ self with state := { self.state with selected := some (selected ++ [id]) } },
              false)

/-- One call of the callback of `selected.forEach(function(selected_id, idx)...)`.
The loop runs over the array object it was started on. `detached` is `none` while that
object is still `state[state_id].selected` (so every `splice` is seen by the loop) and
holds its contents once a listener has stored a fresh array in the state. An index
that is no longer in the array is skipped. -/
def applyExistingStep (host : Host) (acc : DataLayer × Option (List String)) (idx : Nat) :
    Except String (DataLayer × Option (List String)) :=
  match acc.1.state.selected with
  | none => .error TypeError
  | some current =>
    match (acc.2.getD current).get? idx with
    | none => .ok acc
    | some selected_id =>
      let spliced : DataLayer :=
        { acc.1 with state := { acc.1.state with selected := some (splice1 current idx) } }
      match host.select ("#" ++ selected_id) with
      | .error e => .error e
      | .ok none => .ok (spliced, acc.2)
      | .ok (some d) =>
        let listeners : Except String (DataLayer × Option (List String)) :=
          match spliced.onMouseover host d with
          | .error e => .error e
          | .ok hovered =>
            match hovered.onClick host d with
            | .error e => .error e
            | .ok (clicked, fresh) =>
              .ok (clicked,
                if fresh && acc.2.isNone then some (hovered.state.selected.getD []) else acc.2)
        let position : Except String (DataLayer × Option (List String)) :=
          match acc.1.positionTooltip host (.str selected_id) with
          | .error e => .error e
          | .ok layer => .ok (layer, acc.2)
        match acc.1.tooltipAt selected_id with
        | .own { data := _, closed := false } => position
        | .own { data := _, closed := true } => listeners
        | .inherited => position
        | .absent => listeners

/-- `enableTooltips(selection)`. An object value of `selection` stands for a d3
selection; on any other value that passes the `typeof` test the call `selection.on`
fails. Binding the listeners changes the page only; the elements found by id are taken
to carry these listeners. -/
def enableTooltips (host : Host) (self : DataLayer) (selection : JSVal) : Except String DataLayer :=
  if selection.typeof != "object" then .ok self
  else
    match self.layout.id_field with
    | none => .ok self
    | some id_field =>
      if id_field == "" then .ok self
      else
        match selection with
        | .obj _ =>
          match self.layout.selectable with
          | .off => .ok self
          | _ =>
            match self.state.selected with
            | none => .ok self
            | some selected =>
              if selected.length != 0 then
                match (List.range selected.length).foldlM (applyExistingStep host) (self, none) with
                | .error e => .error e
                | .ok acc => .ok acc.1
              else .ok self
        | _ => .error TypeError

end DataLayer

/-! ## The extent as the specification words it -/

/-- The candidate set `S` of the data-derived extent, in the words of the
specification: the minimum `m` and maximum `M` of the field, `m - s * lower_buffer`
when a lower buffer is defined, `M + s * upper_buffer` when an upper buffer is defined
(with `s = M - m`), and both entries of `min_extent` when it is a pair of numbers.
The arithmetic is the host's; a candidate that comes out as `NaN` is `none`. -/
def extentCandidates (host : Host) (m M : JSNumber) (axis : AxisLayout) : List JSNum :=
  [some m, some M]
    ++ (match axis.lower_buffer with
        | some lower_buffer =>
          [host.minus (some m) (host.times (host.minus (some M) (some m)) (some lower_buffer))]
        | none => [])
    ++ (match axis.upper_buffer with
        | some upper_buffer =>
          [host.plus (some M) (host.times (host.minus (some M) (some m)) (some upper_buffer))]
        | none => [])
    ++ (match axis.min_extent with
        | some (some lo, some hi) => [some lo, some hi]
        | _ => [])

/-! ## A sample plot -/

/-- Exact difference of finite numbers, as double arithmetic gives it on small
integers. -/
def exactSub : JSNumber → JSNumber → JSNum
  | .fin x, .fin y => some (.fin (x - y))
  | _, _ => none

/-- Exact sum of finite numbers, as double arithmetic gives it on small integers. -/
def exactAdd : JSNumber → JSNumber → JSNum
  | .fin x, .fin y => some (.fin (x + y))
  | _, _ => none

/-- Exact product of finite numbers, as double arithmetic gives it on small
integers. -/
def exactMul : JSNumber → JSNumber → JSNum
  | .fin x, .fin y => some (.fin (x * y))
  | _, _ => none

/-- Whether a selector built from `#` and `.` parts has a part that is empty or starts
with a digit, which CSS does not allow. -/
def badSelector : List Char → Bool
  | [] => false
  | [c] => c == '#' || c == '.'
  | c :: d :: rest =>
    ((c == '#' || c == '.') && (d.isDigit || d == '#' || d == '.')) || badSelector (d :: rest)

/-- A host for the sample: its page holds no element, rejects a selector with a part
that is empty or starts with a digit, and has no event in progress; its arithmetic is
exact, which is what doubles give on the small integers of the sample. -/
def sampleHost : Host :=
  { stringToNumber := fun _ => none
    sub := exactSub
    add := exactAdd
    mul := exactMul
    select := fun selector => if badSelector selector.toList then .error "SyntaxError" else .ok none
    event := none
    uncloseTooltip := fun layer _ => .ok layer }

/-- A scatter layer with two rows, one highlighted element and two selected ids. -/
def sampleLayer : DataLayer :=
  { id := "positions"
    panel_id := "panel"
    plot_id := "plot"
    layout :=
      { type := "scatter"
        id_field := some "id"
        x_axis := some { field := some "position", lower_buffer := some 1,
                         min_extent := some (some 0, some 2) }
        y_axis := some { floor := some 0, ceiling := some 10 }
        selectable := .multiple
        tooltip := some { show_ := .str "highlighted" } }
    state :=
      { start := some 100
        end_ := some 200
        highlighted := some ["plot.panel.positions.rs1"]
        selected := some ["a", "b"] }
    data := [[("id", .str "rs:1"), ("position", .num 1)],
             [("id", .str "rs2"), ("position", .num 3)]] }

/-- A layer with the default layout, no data and a region in the state. -/
def emptyLayer : DataLayer :=
  { state := { start := some 100, end_ := some 200, highlighted := some [], selected := some [] } }

/-- The sample layer with two open tool tips. -/
def tooltipLayer : DataLayer :=
  { sampleLayer with
    tooltips := [("a", { data := [], closed := false }), ("b", { data := [], closed := true })] }

/-- The sample layer with a highlighted id in the middle that starts with a digit. -/
def staleLayer : DataLayer :=
  { sampleLayer with
    state := { sampleLayer.state with highlighted := some ["ok1", "1abc", "ok2"] } }

/-- The sample layer with one row whose id is a variant name, and nothing
highlighted. -/
def variantLayer : DataLayer :=
  { sampleLayer with
    state := { sampleLayer.state with highlighted := some [] }
    data := [[("id", .str "1:12345_A/G"), ("position", .num 12345)]] }


/-! ## Facts about the helpers -/

theorem typeof_ne_array (v : JSVal) : (v.typeof == "array") = false := by
  cases v <;> rfl

mutual
theorem resolveStatus_eq_null (element : StatusFlags) :
    ∀ (directive operator : JSVal), resolveStatus element directive operator = .ok .null
  | .arr items, operator => by
    rw [resolveStatus]
    simp only [JSVal.typeof]
    exact resolveItems_eq_null element operator items 0
  | .obj props, operator => by
    rw [resolveStatus]
    simp only [JSVal.typeof]
    exact resolveProps_eq_null element operator props
  | .undefined, _ => by unfold resolveStatus; rfl
  | .null, _ => by unfold resolveStatus; rfl
  | .bool _, _ => by unfold resolveStatus; rfl
  | .num _, _ => by unfold resolveStatus; rfl
  | .str _, _ => by unfold resolveStatus; rfl
theorem resolveItems_eq_null (element : StatusFlags) (operator : JSVal) :
    ∀ (items : List JSVal) (i : Nat), resolveItems element operator items i .null = .ok .null
  | [], i => by rw [resolveItems]
  | d :: rest, i => by
    rw [resolveItems, resolveStatus_eq_null element d]
    exact resolveItems_eq_null element operator rest (i + 1)
theorem resolveProps_eq_null (element : StatusFlags) (operator : JSVal) :
    ∀ (props : List (String × JSVal)), resolveProps element operator props .null = .ok .null
  | [] => by rw [resolveProps]
  | (k, d) :: rest => by
    rw [resolveProps, resolveStatus_eq_null element d]
    exact resolveProps_eq_null element operator rest
end

theorem indexOf_eq_neg_one_iff (xs : List String) (s : String) :
    indexOf xs (.str s) = -1 ↔ s ∉ xs := by
  unfold indexOf
  by_cases h : s ∈ xs
  · simp only [h, if_true, not_true_eq_false, iff_false]
    omega
  · simp [h]

theorem indexOf_eq_neg_one (xs : List String) (s : String) :
    (indexOf xs (.str s) == -1) = decide (s ∉ xs) := by
  by_cases h : s ∈ xs <;> simp [indexOf_eq_neg_one_iff, h]

theorem splice1_indexOf (xs : List String) (s : String) (h : s ∈ xs) :
    splice1 xs (indexOf xs (.str s)) = xs.erase s := by
  unfold splice1 indexOf
  simp only [h, if_true, Int.toNat_ofNat]
  exact List.eraseIdx_indexOf_eq_erase s xs

theorem show_tooltip_ok (self : DataLayer) (id : JSVal) (h s : List String)
    (hh : self.state.highlighted = some h) (hs : self.state.selected = some s) :
    ∃ v, self.show_tooltip id = .ok v := by
  unfold DataLayer.show_tooltip
  cases self.layout.tooltip with
  | none => exact ⟨none, rfl⟩
  | some tooltip =>
    simp only [hh, hs, resolveStatus_eq_null]
    exact ⟨_, rfl⟩

theorem showOrHideTooltip_ok (self : DataLayer) (id : JSVal) (h s : List String)
    (hh : self.state.highlighted = some h) (hs : self.state.selected = some s) :
    self.showOrHideTooltip id = .ok self := by
  obtain ⟨v, hv⟩ := show_tooltip_ok self id h s hh hs
  simp [DataLayer.showOrHideTooltip, hv]

theorem State.set_both (st : State) (status : String) (xs h s : List String)
    (hh : st.highlighted = some h) (hs : st.selected = some s) :
    ∃ h1 s1, (st.set status xs).highlighted = some h1 ∧ (st.set status xs).selected = some s1 := by
  unfold State.set
  split
  · exact ⟨xs, s, rfl, hs⟩
  · split
    · exact ⟨h, xs, hh, rfl⟩
    · exact ⟨h, s, hh, hs⟩

theorem status_check (st : String) (hst : st = "highlighted" ∨ st = "selected") :
    ((JSVal.str st).typeof == "undefined" || indexOf ["highlighted", "selected"] (.str st) == -1)
      = false := by
  rcases hst with rfl | rfl <;> decide

theorem toggleElementStatus_eq (host : Host) (self : DataLayer) (st id : String)
    (toggle : JSVal) (b : Bool) (h s xs : List String) (found : Option Element)
    (hh : self.state.highlighted = some h) (hs : self.state.selected = some s)
    (hst : st = "highlighted" ∨ st = "selected") (hx : self.state.get st = some xs)
    (hb : (if toggle.typeof == "undefined" then JSVal.bool true else toggle).truthy = b)
    (hsel : host.select ("#" ++ self.hoverId id) = .ok found) :
    self.toggleElementStatus host (.str st) (.str id) toggle =
      (.ok (), { self with state := (self.state.set st
              (if b then (if id ∈ xs then xs else xs ++ [id]) else xs.erase id)) }) := by
  unfold DataLayer.toggleElementStatus
  rw [status_check st hst]
  have hid : ((JSVal.str id).typeof != "string") = false := rfl
  have hxs : (if (!b && indexOf xs (JSVal.str id) != -1) = true then
        splice1 (if (b && indexOf xs (JSVal.str id) == -1) = true then xs ++ [id] else xs)
          (indexOf xs (JSVal.str id))
      else if (b && indexOf xs (JSVal.str id) == -1) = true then xs ++ [id] else xs) =
      (if b then (if id ∈ xs then xs else xs ++ [id]) else xs.erase id) := by
    rw [indexOf_eq_neg_one]
    by_cases hm : id ∈ xs <;> cases b <;>
      simp [hm, splice1_indexOf, List.erase_of_not_mem, indexOf_eq_neg_one_iff]
  obtain ⟨h1, s1, e1, e2⟩ := State.set_both self.state st
    (if b then (if id ∈ xs then xs else xs ++ [id]) else xs.erase id) h s hh hs
  simp only [Bool.false_eq_true, if_false, hid, hx, hb, hsel, hxs]
  rw [showOrHideTooltip_ok { self with state := (self.state.set st
    (if b then (if id ∈ xs then xs else xs ++ [id]) else xs.erase id)) } (.str id) h1 s1 e1 e2]

theorem toggleElementStatus_rejected (host : Host) (self : DataLayer) (st id : String)
    (toggle : JSVal) (e : String)
    (hst : st = "highlighted" ∨ st = "selected")
    (hsel : host.select ("#" ++ self.hoverId id) = .error e) :
    self.toggleElementStatus host (.str st) (.str id) toggle = (.error e, self) := by
  unfold DataLayer.toggleElementStatus
  rw [status_check st hst]
  have hid : ((JSVal.str id).typeof != "string") = false := rfl
  simp only [Bool.false_eq_true, if_false, hid, hsel]

theorem State.get_set (st : State) (status : String) (xs : List String)
    (hst : status = "highlighted" ∨ status = "selected") :
    (st.set status xs).get status = some xs := by
  rcases hst with rfl | rfl <;> rfl

theorem State.set_set (st : State) (status : String) (xs ys : List String) :
    (st.set status xs).set status ys = st.set status ys := by
  unfold State.set
  split
  · rfl
  · split <;> rfl

theorem State.set_get_self (st : State) (status : String) (xs : List String)
    (hx : st.get status = some xs) : st.set status xs = st := by
  unfold State.get at hx
  unfold State.set
  split
  · rename_i h1; rw [if_pos h1] at hx; cases st; simp_all
  · rename_i h1
    rw [if_neg h1] at hx
    split
    · rename_i h2; rw [if_pos h2] at hx; cases st; simp_all
    · rfl

theorem filter_ne_erase (xs : List String) (id : String) :
    (xs.erase id).filter (fun a => decide (a ≠ id)) = xs.filter (fun a => decide (a ≠ id)) := by
  induction xs with
  | nil => rfl
  | cons a rest ih =>
    by_cases h : a = id
    · subst h; simp
    · have h1 : ¬ (a == id) = true := by simpa using h
      rw [List.erase_cons_tail h1]
      simp only [List.filter_cons, ih]

/-- C1, as the code has it: with both status arrays present and an id whose selector
`"#" + element_id` the page accepts, `toggleElementStatus(status, id, true)` (also with
`toggle` omitted) leaves `id` in the array of that status, appending it only when it
was absent, so that an array without duplicates stays so and the other ids keep their
order; `toggleElementStatus(status, id, false)` on an array without duplicates removes
`id` and keeps the other ids in order. -/
theorem toggleElementStatus_tracks_id (host : Host) (self : DataLayer) (status id : String)
    (h s xs : List String) (found : Option Element)
    (hh : self.state.highlighted = some h) (hs : self.state.selected = some s)
    (hst : status = "highlighted" ∨ status = "selected")
    (hx : self.state.get status = some xs)
    (hsel : host.select ("#" ++ self.hoverId id) = .ok found) :
    (∀ toggle, toggle = JSVal.bool true ∨ toggle = JSVal.undefined →
      ∃ layer ys, self.toggleElementStatus host (.str status) (.str id) toggle = (.ok (), layer) ∧
        layer.state.get status = some ys ∧ id ∈ ys ∧
        ys = (if id ∈ xs then xs else xs ++ [id]) ∧
        (xs.Nodup → ys.Nodup) ∧
        ys.filter (fun a => decide (a ≠ id)) = xs.filter (fun a => decide (a ≠ id))) ∧
    (xs.Nodup →
      ∃ layer ys,
        self.toggleElementStatus host (.str status) (.str id) (.bool false) = (.ok (), layer) ∧
        layer.state.get status = some ys ∧ id ∉ ys ∧
        ys.filter (fun a => decide (a ≠ id)) = xs.filter (fun a => decide (a ≠ id))) := by
  constructor
  · intro toggle ht
    have hb : (if toggle.typeof == "undefined" then JSVal.bool true else toggle).truthy = true := by
      rcases ht with rfl | rfl <;> rfl
    refine ⟨_, _,
      toggleElementStatus_eq host self status id toggle true h s xs found hh hs hst hx hb hsel,
      State.get_set _ _ _ hst, ?_, by simp, ?_, ?_⟩
    · by_cases hm : id ∈ xs <;> simp [hm]
    · intro hn
      by_cases hm : id ∈ xs
      · simpa [hm] using hn
      · simp only [if_true, hm, if_false]
        exact List.Nodup.append hn (List.nodup_singleton id) (by simpa using hm)
    · by_cases hm : id ∈ xs <;> simp [hm, List.filter_append]
  · intro hn
    have hb : (if (JSVal.bool false).typeof == "undefined" then JSVal.bool true
        else JSVal.bool false).truthy = false := rfl
    refine ⟨_, _,
      toggleElementStatus_eq host self status id (.bool false) false h s xs found hh hs hst hx
        hb hsel,
      State.get_set _ _ _ hst, ?_, ?_⟩
    · simpa using hn.not_mem_erase
    · simpa using filter_ne_erase xs id

/-- C1 as stated fails: on the sample layer, which holds both status arrays, the string
id `1abc` gives the selector `#1abc`, which the page rejects; `toggleElementStatus` with
`toggle` true throws at `d3.select` and the id is not in the highlighted array
afterwards. -/
theorem toggleElementStatus_throws_on_rejected_selector :
    sampleLayer.state.highlighted = some ["plot.panel.positions.rs1"] ∧
    sampleLayer.state.selected = some ["a", "b"] ∧
    sampleHost.select "#1abc" = .error "SyntaxError" ∧
    ∃ after, sampleLayer.toggleElementStatus sampleHost (.str "highlighted") (.str "1abc")
        (.bool true) = (.error "SyntaxError", after) ∧
      after.state.highlighted = some ["plot.panel.positions.rs1"] ∧
      "1abc" ∉ ["plot.panel.positions.rs1"] :=
  ⟨rfl, rfl, rfl, sampleLayer, rfl, rfl, by decide⟩


theorem foldl_erase_eq_nil : ∀ (ids xs : List String),
    (∀ a, xs.count a ≤ ids.count a) → ids.foldl List.erase xs = []
  | [], xs, hc => by
    simp only [List.foldl_nil]
    apply List.eq_nil_iff_forall_not_mem.mpr
    intro a ha
    have := hc a
    have hpos := List.count_pos_iff.mpr ha
    simp at this
    omega
  | i :: ids, xs, hc => by
    simp only [List.foldl_cons]
    apply foldl_erase_eq_nil ids
    intro a
    have := hc a
    rw [List.count_erase, List.count_cons] at *
    by_cases h : i == a <;> simp [h] at this ⊢ <;> omega

theorem forEach_untoggle (host : Host) (st : String)
    (hst : st = "highlighted" ∨ st = "selected") :
    ∀ (ids : List String) (layer : DataLayer) (h s xs : List String),
      layer.state.highlighted = some h → layer.state.selected = some s →
      layer.state.get st = some xs →
      (∀ id ∈ ids, ∃ found, host.select ("#" ++ layer.hoverId id) = .ok found) →
      DataLayer.forEach (DataLayer.untoggleAllCallback host st) ids layer =
        (.ok (), { layer with state := (layer.state.set st (ids.foldl List.erase xs)) })
  | [], layer, h, s, xs, _, _, hx, _ => by
    simp only [DataLayer.forEach, List.foldl_nil, State.set_get_self _ _ _ hx]
  | i :: ids, layer, h, s, xs, hh, hs, hx, hsel => by
    have hb : (if (JSVal.bool false).typeof == "undefined" then JSVal.bool true
        else JSVal.bool false).truthy = false := rfl
    obtain ⟨found, hfound⟩ := hsel i (List.mem_cons_self _ _)
    have hstep := toggleElementStatus_eq host layer st i (.bool false) false h s xs found
      hh hs hst hx hb hfound
    simp only [Bool.false_eq_true, if_false] at hstep
    obtain ⟨h1, s1, e1, e2⟩ := State.set_both layer.state st (xs.erase i) h s hh hs
    have ih := forEach_untoggle host st hst ids
      { layer with state := (layer.state.set st (xs.erase i)) } h1 s1 (xs.erase i) e1 e2
      (State.get_set _ _ _ hst) (fun id hid => hsel id (List.mem_cons_of_mem _ hid))
    simp only [State.set_set] at ih
    simp only [DataLayer.forEach, DataLayer.untoggleAllCallback, hstep, List.foldl_cons]
    exact ih

theorem toggleAllElementStatus_off_eq (host : Host) (self : DataLayer) (st : String)
    (h s xs : List String)
    (hh : self.state.highlighted = some h) (hs : self.state.selected = some s)
    (hst : st = "highlighted" ∨ st = "selected") (hx : self.state.get st = some xs)
    (hsel : ∀ id ∈ xs, ∃ found, host.select ("#" ++ self.hoverId id) = .ok found) :
    self.toggleAllElementStatus host (.str st) (.bool false) =
      (.ok (), { self with state := (self.state.set st []) }) := by
  unfold DataLayer.toggleAllElementStatus
  rw [status_check st hst]
  have ht : (if (JSVal.bool false).typeof == "undefined" then JSVal.bool true
      else JSVal.bool false).truthy = false := rfl
  simp only [Bool.false_eq_true, if_false, ht, hx]
  rw [forEach_untoggle host st hst xs self h s xs hh hs hx hsel,
    foldl_erase_eq_nil xs xs (fun _ => le_refl _)]

/-- C2, as the code has it: with both status arrays present, whatever string ids the
array of a status holds (duplicates included), provided the page accepts the selector
`"#" + element_id` of each of them, `toggleAllElementStatus(status, false)`, which is
what `unhighlightAllElements()` and `unselectAllElements()` run, returns with that
array empty and the array of the other status as it was. -/
theorem toggleAllElementStatus_false_empties (host : Host) (self : DataLayer)
    (h s : List String)
    (hh : self.state.highlighted = some h) (hs : self.state.selected = some s) :
    ((∀ id ∈ h, ∃ found, host.select ("#" ++ self.hoverId id) = .ok found) →
      ∃ layer, self.toggleAllElementStatus host (.str "highlighted") (.bool false) = (.ok (), layer) ∧
        self.unhighlightAllElements host = (.ok (), layer) ∧
        layer.state.highlighted = some [] ∧ layer.state.selected = some s) ∧
    ((∀ id ∈ s, ∃ found, host.select ("#" ++ self.hoverId id) = .ok found) →
      ∃ layer, self.toggleAllElementStatus host (.str "selected") (.bool false) = (.ok (), layer) ∧
        self.unselectAllElements host = (.ok (), layer) ∧
        layer.state.selected = some [] ∧ layer.state.highlighted = some h) := by
  constructor
  · intro hsel
    have e1 := toggleAllElementStatus_off_eq host self "highlighted" h s h hh hs (Or.inl rfl) hh hsel
    exact ⟨_, e1, e1, rfl, hs⟩
  · intro hsel
    have e2 := toggleAllElementStatus_off_eq host self "selected" h s s hh hs (Or.inr rfl) hs hsel
    exact ⟨_, e2, e2, rfl, hh⟩

/-- C2 as stated fails: the highlighted array of the stale layer holds the string ids
`ok1`, `1abc`, `ok2`; `unhighlightAllElements()` removes `ok1`, throws at
`d3.select("#1abc")`, and leaves `1abc` and `ok2` in the array. -/
theorem toggleAllElementStatus_false_stops_at_rejected_selector :
    staleLayer.state.highlighted = some ["ok1", "1abc", "ok2"] ∧
    staleLayer.state.selected = some ["a", "b"] ∧
    sampleHost.select "#1abc" = .error "SyntaxError" ∧
    ∃ after, staleLayer.unhighlightAllElements sampleHost = (.error "SyntaxError", after) ∧
      staleLayer.toggleAllElementStatus sampleHost (.str "highlighted") (.bool false) =
        (.error "SyntaxError", after) ∧
      after.state.highlighted = some ["1abc", "ok2"] :=
  ⟨rfl, rfl, rfl, _, rfl, rfl, rfl⟩

theorem forEach_toggle (host : Host) (st : String)
    (hst : st = "highlighted" ∨ st = "selected") :
    ∀ (data : List Element) (layer : DataLayer) (h s xs : List String),
      layer.state.highlighted = some h → layer.state.selected = some s →
      layer.state.get st = some xs →
      (∀ e ∈ data, ∃ i, layer.getElementId e = .ok i) →
      (∀ e ∈ data, ∀ i, layer.getElementId e = .ok i → i ∉ xs →
        ∃ found, host.select ("#" ++ layer.hoverId i) = .ok found) →
      ∃ added, DataLayer.forEach (DataLayer.toggleAllCallback host st) data layer =
          (.ok (), { layer with state := (layer.state.set st (xs ++ added)) }) ∧
        added.Nodup ∧ (∀ a ∈ added, a ∉ xs) ∧
        (∀ a ∈ added, ∃ e ∈ data, layer.getElementId e = .ok a) ∧
        (∀ e ∈ data, ∀ i, layer.getElementId e = .ok i → i ∈ xs ++ added)
  | [], layer, h, s, xs, _, _, hx, _, _ => by
    refine ⟨[], ?_, List.nodup_nil, by simp, by simp, by simp⟩
    simp only [DataLayer.forEach, List.append_nil, State.set_get_self _ _ _ hx]
  | e :: data, layer, h, s, xs, hh, hs, hx, hid, hsel => by
    obtain ⟨i, hi⟩ := hid e (List.mem_cons_self _ _)
    have hb : (if (JSVal.bool true).typeof == "undefined" then JSVal.bool true
        else JSVal.bool true).truthy = true := rfl
    have hrest : ∀ e ∈ data, ∃ i, layer.getElementId e = .ok i :=
      fun e he => hid e (List.mem_cons_of_mem _ he)
    by_cases hm : i ∈ xs
    · have hstep : DataLayer.toggleAllCallback host st layer e = (.ok (), layer) := by
        simp [DataLayer.toggleAllCallback, hi, hx, indexOf_eq_neg_one, hm]
      obtain ⟨added, h1, h2, h3, h4, h5⟩ := forEach_toggle host st hst data layer h s xs hh hs hx
        hrest (fun e he => hsel e (List.mem_cons_of_mem _ he))
      refine ⟨added, ?_, h2, h3, ?_, ?_⟩
      · simp only [DataLayer.forEach, hstep]; exact h1
      · intro a ha
        obtain ⟨e1, he1, h6⟩ := h4 a ha
        exact ⟨e1, List.mem_cons_of_mem _ he1, h6⟩
      · intro e1 he1 i1 hi1
        rcases List.mem_cons.mp he1 with rfl | he1
        · rw [hi] at hi1; cases hi1; exact List.mem_append_left _ hm
        · exact h5 e1 he1 i1 hi1
    · obtain ⟨found, hfound⟩ := hsel e (List.mem_cons_self _ _) i hi hm
      have hstep : DataLayer.toggleAllCallback host st layer e =
          (.ok (), { layer with state := (layer.state.set st (xs ++ [i])) }) := by
        simp only [DataLayer.toggleAllCallback, hi, hx, indexOf_eq_neg_one, hm, not_false_eq_true,
          decide_True, if_true]
        rw [toggleElementStatus_eq host layer st i (.bool true) true h s xs found hh hs hst hx
          hb hfound]
        simp [hm]
      obtain ⟨h1, s1, e1, e2⟩ := State.set_both layer.state st (xs ++ [i]) h s hh hs
      obtain ⟨added, g1, g2, g3, g4, g5⟩ := forEach_toggle host st hst data
        { layer with state := (layer.state.set st (xs ++ [i])) } h1 s1 (xs ++ [i]) e1 e2
        (State.get_set _ _ _ hst) hrest
        (fun e1 he1 i1 hi1 hn =>
          hsel e1 (List.mem_cons_of_mem _ he1) i1 hi1
            (fun hx1 => hn (List.mem_append_left _ hx1)))
      refine ⟨i :: added, ?_, ?_, ?_, ?_, ?_⟩
      · simp only [DataLayer.forEach, hstep]
        simp only [State.set_set, List.append_assoc, List.singleton_append] at g1
        exact g1
      · refine List.nodup_cons.mpr ⟨fun hin => g3 i hin (by simp), g2⟩
      · intro a ha
        rcases List.mem_cons.mp ha with rfl | ha
        · exact hm
        · exact fun hax => g3 a ha (List.mem_append_left _ hax)
      · intro a ha
        rcases List.mem_cons.mp ha with rfl | ha
        · exact ⟨e, List.mem_cons_self _ _, hi⟩
        · obtain ⟨e1, he1, h6⟩ := g4 a ha
          exact ⟨e1, List.mem_cons_of_mem _ he1, h6⟩
      · intro e1 he1 i1 hi1
        rcases List.mem_cons.mp he1 with rfl | he1
        · rw [hi] at hi1; cases hi1; simp
        · have := g5 e1 he1 i1 hi1
          simpa using this

theorem getElementId_ok (self : DataLayer) (e : Element) (v : String)
    (hv : e.get (self.layout.id_field.getD "undefined") = some (.str v)) :
    self.getElementId e = .ok (self.getBaseId ++ "." ++ replaceNonWord v) := by
  simp [DataLayer.getElementId, hv]

/-- C3, as the code has it: with both status arrays present, a string id field in
every element of `this.data`, and a selector `"#" + element_id` the page accepts for
every element id that is not yet in the array, `toggleAllElementStatus(status, true)`
(what `highlightAllElements()` and `selectAllElements()` run, `toggle` omitted
included) returns with the element id of every element in the array of that status;
the array is the old one followed by the added ids, and the added ids are distinct
and were not in the array before. -/
theorem toggleAllElementStatus_true_adds (host : Host) (self : DataLayer) (status : String)
    (h s xs : List String)
    (hh : self.state.highlighted = some h) (hs : self.state.selected = some s)
    (hst : status = "highlighted" ∨ status = "selected")
    (hx : self.state.get status = some xs)
    (hid : ∀ e ∈ self.data, ∃ v, e.get (self.layout.id_field.getD "undefined") = some (.str v))
    (hsel : ∀ e ∈ self.data, ∀ i, self.getElementId e = .ok i → i ∉ xs →
      ∃ found, host.select ("#" ++ self.hoverId i) = .ok found)
    (toggle : JSVal) (ht : toggle = JSVal.bool true ∨ toggle = JSVal.undefined) :
    ∃ layer ys added, self.toggleAllElementStatus host (.str status) toggle = (.ok (), layer) ∧
      (status = "highlighted" → self.highlightAllElements host toggle = (.ok (), layer)) ∧
      (status = "selected" → self.selectAllElements host toggle = (.ok (), layer)) ∧
      layer.state.get status = some ys ∧
      (∀ e ∈ self.data, ∃ i, self.getElementId e = .ok i ∧ i ∈ ys) ∧
      ys = xs ++ added ∧ (∀ a ∈ xs, a ∈ ys) ∧
      added.Nodup ∧ (∀ a ∈ added, a ∉ xs) ∧
      (∀ a ∈ added, ∃ e ∈ self.data, self.getElementId e = .ok a) := by
  have hids : ∀ e ∈ self.data, ∃ i, self.getElementId e = .ok i := fun e he => by
    obtain ⟨v, hv⟩ := hid e he
    exact ⟨_, getElementId_ok self e v hv⟩
  obtain ⟨added, g1, g2, g3, g4, g5⟩ :=
    forEach_toggle host status hst self.data self h s xs hh hs hx hids hsel
  have hb : (if toggle.typeof == "undefined" then JSVal.bool true else toggle).truthy = true := by
    rcases ht with rfl | rfl <;> rfl
  have hrun : self.toggleAllElementStatus host (.str status) toggle =
      (.ok (), { self with state := (self.state.set status (xs ++ added)) }) := by
    unfold DataLayer.toggleAllElementStatus
    rw [status_check status hst]
    simp only [Bool.false_eq_true, if_false, hb, if_true]
    exact g1
  refine ⟨_, xs ++ added, added, hrun, ?_, ?_, State.get_set _ _ _ hst, ?_, rfl, ?_, g2, g3, g4⟩
  · intro e; subst e; exact hrun
  · intro e; subst e; exact hrun
  · intro e he
    obtain ⟨i, hi⟩ := hids e he
    exact ⟨i, hi, g5 e he i hi⟩
  · intro a ha; exact List.mem_append_left _ ha

/-- C3 as stated fails: the one row of the variant layer has the string id
`1:12345_A/G`, so its element id is `plot.panel.positions.112345_AG`; the page rejects
the selector made of it, `highlightAllElements()` throws at `d3.select`, and the
element id is not in the highlighted array afterwards. -/
theorem toggleAllElementStatus_true_throws_on_variant_id :
    variantLayer.state.highlighted = some [] ∧
    variantLayer.state.selected = some ["a", "b"] ∧
    variantLayer.data = [[("id", .str "1:12345_A/G"), ("position", .num 12345)]] ∧
    variantLayer.getElementId [("id", .str "1:12345_A/G"), ("position", .num 12345)] =
      .ok "plot.panel.positions.112345_AG" ∧
    sampleHost.select "#plot.panel.positions.112345_AG" = .error "SyntaxError" ∧
    ∃ after, variantLayer.highlightAllElements sampleHost (.bool true) =
        (.error "SyntaxError", after) ∧
      variantLayer.toggleAllElementStatus sampleHost (.str "highlighted") (.bool true) =
        (.error "SyntaxError", after) ∧
      after.state.highlighted = some [] :=
  ⟨rfl, rfl, rfl, rfl, rfl, _, rfl, rfl, rfl⟩

theorem dimension_check (dimension : String) (hd : dimension = "x" ∨ dimension = "y") :
    (indexOf ["x", "y"] (.str dimension) == -1) = false := by
  rcases hd with rfl | rfl <;> decide

theorem getAxisExtent_of_axis (host : Host) (self : DataLayer) (dimension : String)
    (axis : AxisLayout)
    (hd : (dimension = "x" ∧ self.layout.x_axis = some axis) ∨
      (dimension = "y" ∧ self.layout.y_axis = some axis)) :
    self.getAxisExtent host (.str dimension) =
      (if !isNaN axis.floor && !isNaN axis.ceiling then
        (.ok [axis.floor, axis.ceiling], self)
      else
        match axis.field with
        | some field =>
          if field != "" && self.data.length != 0 then
            (.ok (self.dataExtent host axis field), self)
          else (.ok (self.stateExtent (.str dimension)), self)
        | none => (.ok (self.stateExtent (.str dimension)), self)) := by
  unfold DataLayer.getAxisExtent
  rcases hd with ⟨rfl, ha⟩ | ⟨rfl, ha⟩
  · rw [dimension_check "x" (Or.inl rfl)]
    have : (JSVal.str "x").eqStr "x" = true := by decide
    simp only [Bool.false_eq_true, if_false, this, if_true, ha]
  · rw [dimension_check "y" (Or.inr rfl)]
    have : (JSVal.str "y").eqStr "x" = false := by decide
    simp only [Bool.false_eq_true, if_false, this, ha]

/-- C4: for dimension x or y whose axis layout defines a numeric floor and a numeric
ceiling, `getAxisExtent(dimension)` returns exactly `[floor, ceiling]`, whatever the
data, the axis field, the buffers, `min_extent` and the state are. -/
theorem getAxisExtent_floor_and_ceiling (host : Host) (self : DataLayer) (dimension : String)
    (axis : AxisLayout) (floor ceiling : JSNumber)
    (hd : (dimension = "x" ∧ self.layout.x_axis = some axis) ∨
      (dimension = "y" ∧ self.layout.y_axis = some axis))
    (hf : axis.floor = some floor) (hc : axis.ceiling = some ceiling) :
    (self.getAxisExtent host (.str dimension)).1 = .ok [some floor, some ceiling] := by
  rw [getAxisExtent_of_axis host self dimension axis hd]
  simp [hf, hc, isNaN]

/-- C6: when floor and ceiling are not both defined and the axis has no field or the
layer has no data, `getAxisExtent("x")` returns `[state.start, state.end]` if both are
numbers, and in every other case (dimension y, or start or end not defined) the empty
array is returned. -/
theorem getAxisExtent_state_fallback (host : Host) (self : DataLayer) (dimension : String)
    (axis : AxisLayout)
    (hd : (dimension = "x" ∧ self.layout.x_axis = some axis) ∨
      (dimension = "y" ∧ self.layout.y_axis = some axis))
    (hfc : axis.floor = none ∨ axis.ceiling = none)
    (hno : axis.field = none ∨ axis.field = some "" ∨ self.data = []) :
    (∀ a b, dimension = "x" → self.state.start = some a → self.state.end_ = some b →
      (self.getAxisExtent host (.str dimension)).1 = .ok [some a, some b]) ∧
    (dimension = "y" ∨ self.state.start = none ∨ self.state.end_ = none →
      (self.getAxisExtent host (.str dimension)).1 = .ok []) := by
  have hboth : (!isNaN axis.floor && !isNaN axis.ceiling) = false := by
    rcases hfc with h | h <;> simp [h, isNaN]
  have hrun : (self.getAxisExtent host (.str dimension)).1 =
      .ok (self.stateExtent (.str dimension)) := by
    rw [getAxisExtent_of_axis host self dimension axis hd, hboth]
    simp only [Bool.false_eq_true, if_false]
    rcases hno with h | h | h
    · simp [h]
    · simp [h]
    · cases hfield : axis.field <;> simp [h]
  rw [hrun]
  constructor
  · intro a b hx hs he
    subst hx
    simp [DataLayer.stateExtent, hs, he, isNaN, JSVal.eqStr]
  · intro hcase
    rcases hcase with h | h | h
    · subst h
      have : (JSVal.str "y").eqStr "x" = false := by decide
      simp [DataLayer.stateExtent, this]
    · simp [DataLayer.stateExtent, h, isNaN]
    · simp [DataLayer.stateExtent, h, isNaN]

/-- C7: `getAxisExtent(dimension)` throws the invalid-dimension message for every
dimension other than `"x"` and `"y"`; for `"x"` and `"y"` on a layer whose layout has
both axis objects it returns an array; either way the layer is left as it was. -/
theorem getAxisExtent_throws_only_invalid_dimension (host : Host) (self : DataLayer) :
    (∀ dimension : JSVal, dimension ≠ .str "x" → dimension ≠ .str "y" →
      self.getAxisExtent host dimension =
        (.error "Invalid dimension identifier passed to LocusZoom.DataLayer.getAxisExtent()",
          self)) ∧
    (∀ x_axis y_axis, self.layout.x_axis = some x_axis → self.layout.y_axis = some y_axis →
      ∀ dimension : JSVal, dimension = .str "x" ∨ dimension = .str "y" →
        ∃ extent, self.getAxisExtent host dimension = (.ok extent, self)) := by
  constructor
  · intro dimension hx hy
    have hidx : (indexOf ["x", "y"] dimension == -1) = true := by
      cases dimension with
      | str d =>
        rw [indexOf_eq_neg_one]
        have h1 : d ≠ "x" := fun h => hx (by rw [h])
        have h2 : d ≠ "y" := fun h => hy (by rw [h])
        simp [h1, h2]
      | _ => rfl
    unfold DataLayer.getAxisExtent
    rw [hidx]
    rfl
  · intro x_axis y_axis hxa hya dimension hd
    have key : ∀ (d : String) (axis : AxisLayout),
        ((d = "x" ∧ self.layout.x_axis = some axis) ∨ (d = "y" ∧ self.layout.y_axis = some axis)) →
        ∃ extent, self.getAxisExtent host (.str d) = (.ok extent, self) := by
      intro d axis h
      rw [getAxisExtent_of_axis host self d axis h]
      split
      · exact ⟨_, rfl⟩
      · split
        · split
          · exact ⟨_, rfl⟩
          · exact ⟨_, rfl⟩
        · exact ⟨_, rfl⟩
    rcases hd with rfl | rfl
    · exact key "x" x_axis (Or.inl ⟨rfl, hxa⟩)
    · exact key "y" y_axis (Or.inr ⟨rfl, hya⟩)

theorem foldl_d3_extent_step (rest : List JSNum) : ∀ (a c : JSNumber),
    some (rest.foldl d3_extent_step (a, c)).1 ∈ some a :: rest ∧
    (∀ v, some v ∈ some a :: rest → (rest.foldl d3_extent_step (a, c)).1 ≤ v) ∧
    some (rest.foldl d3_extent_step (a, c)).2 ∈ some c :: rest ∧
    (∀ v, some v ∈ some c :: rest → v ≤ (rest.foldl d3_extent_step (a, c)).2) := by
  induction rest with
  | nil => intro a c; simp
  | cons x rest ih =>
    intro a c
    cases x with
    | none =>
      simp only [List.foldl_cons, d3_extent_step]
      obtain ⟨h1, h2, h3, h4⟩ := ih a c
      refine ⟨?_, ?_, ?_, ?_⟩
      · rcases List.mem_cons.mp h1 with h | h
        · rw [h]; simp
        · simp [h]
      · intro v hv
        apply h2 v
        rcases List.mem_cons.mp hv with h | h
        · rw [h]; simp
        · rcases List.mem_cons.mp h with h | h
          · cases h
          · simp [h]
      · rcases List.mem_cons.mp h3 with h | h
        · rw [h]; simp
        · simp [h]
      · intro v hv
        apply h4 v
        rcases List.mem_cons.mp hv with h | h
        · rw [h]; simp
        · rcases List.mem_cons.mp h with h | h
          · cases h
          · simp [h]
    | some b =>
      simp only [List.foldl_cons, d3_extent_step]
      obtain ⟨h1, h2, h3, h4⟩ := ih (if a > b then b else a) (if c < b then b else c)
      refine ⟨?_, ?_, ?_, ?_⟩
      · rcases List.mem_cons.mp h1 with h | h
        · rw [h]; split <;> simp
        · simp [h]
      · intro v hv
        have hmin := h2 _ (List.mem_cons_self _ _)
        rcases List.mem_cons.mp hv with h | hv
        · cases h
          refine le_trans hmin ?_
          split <;> rename_i hab
          · exact le_of_lt hab
          · exact le_refl _
        · rcases List.mem_cons.mp hv with h | hv
          · cases h
            refine le_trans hmin ?_
            split <;> rename_i hab
            · exact le_refl _
            · exact not_lt.mp hab
          · exact h2 v (List.mem_cons_of_mem _ hv)
      · rcases List.mem_cons.mp h3 with h | h
        · rw [h]; split <;> simp
        · simp [h]
      · intro v hv
        have hmax := h4 _ (List.mem_cons_self _ _)
        rcases List.mem_cons.mp hv with h | hv
        · cases h
          refine le_trans ?_ hmax
          split <;> rename_i hab
          · exact le_of_lt hab
          · exact le_refl _
        · rcases List.mem_cons.mp hv with h | hv
          · cases h
            refine le_trans ?_ hmax
            split <;> rename_i hab
            · exact le_refl _
            · exact not_lt.mp hab
          · exact h4 v (List.mem_cons_of_mem _ hv)

theorem d3_extent_cons_some (b : JSNumber) (rest : List JSNum) :
    ∃ lo hi, d3_extent (some b :: rest) = (some lo, some hi) ∧
      some lo ∈ some b :: rest ∧ (∀ v, some v ∈ some b :: rest → lo ≤ v) ∧
      some hi ∈ some b :: rest ∧ (∀ v, some v ∈ some b :: rest → v ≤ hi) := by
  obtain ⟨h1, h2, h3, h4⟩ := foldl_d3_extent_step rest b b
  exact ⟨_, _, rfl, h1, h2, h3, h4⟩

theorem d3_extent_least_greatest (vals : List JSNumber) (m M : JSNumber)
    (hm : m ∈ vals ∧ ∀ v ∈ vals, m ≤ v) (hM : M ∈ vals ∧ ∀ v ∈ vals, v ≤ M) :
    d3_extent (vals.map some) = (some m, some M) := by
  cases vals with
  | nil => exact absurd hm.1 (List.not_mem_nil _)
  | cons b rest =>
    obtain ⟨lo, hi, he, h1, h2, h3, h4⟩ := d3_extent_cons_some b (rest.map some)
    have mem : ∀ v, some v ∈ some b :: rest.map some ↔ v ∈ b :: rest := by
      intro v
      simp
    rw [List.map_cons, he,
      le_antisymm (h2 m ((mem m).mpr hm.1)) (hm.2 lo ((mem lo).mp h1)),
      le_antisymm (hM.2 hi ((mem hi).mp h3)) (h4 M ((mem M).mpr hM.1))]

theorem dataExtent_eq (host : Host) (self : DataLayer) (axis : AxisLayout) (field : String)
    (vals : List JSNumber) (m M : JSNumber)
    (hvals : self.data.map (fun d => toNumber host (d.get field)) = vals.map some)
    (hm : m ∈ vals ∧ ∀ v ∈ vals, m ≤ v) (hM : M ∈ vals ∧ ∀ v ∈ vals, v ≤ M) :
    self.dataExtent host axis field =
      [if !isNaN axis.floor then axis.floor
        else (d3_extent (extentCandidates host m M axis)).1,
       if !isNaN axis.ceiling then axis.ceiling
        else (d3_extent (extentCandidates host m M axis)).2] := by
  unfold DataLayer.dataExtent
  rw [hvals, d3_extent_least_greatest vals m M hm hM]
  have hS : ([some m, some M]
      ++ (if !isNaN axis.lower_buffer then
            [host.minus (some m) (host.times (host.minus (some M) (some m)) axis.lower_buffer)]
          else [])
      ++ (if !isNaN axis.upper_buffer then
            [host.plus (some M) (host.times (host.minus (some M) (some m)) axis.upper_buffer)]
          else [])
      ++ (match axis.min_extent with
          | some (lo, hi) => if !isNaN lo && !isNaN hi then [lo, hi] else []
          | none => [])) = extentCandidates host m M axis := by
    unfold extentCandidates
    rcases hl : axis.lower_buffer with _ | lb <;> rcases hu : axis.upper_buffer with _ | ub <;>
      rcases he : axis.min_extent with _ | ⟨_ | a, _ | b⟩ <;>
      simp [isNaN]
  simp only [hS]

/-- C5: for dimension x or y with an axis field, non-empty data whose field values
are numbers, and not both floor and ceiling defined, `getAxisExtent(dimension)`
returns `[lo, hi]`, where `lo` is the floor when there is one and the least number of
the candidate set `S` otherwise, and `hi` is the ceiling when there is one and the
greatest number of `S` otherwise; with neither floor nor ceiling, every data value
lies in `[lo, hi]` and so do both entries of a numeric `min_extent`. The candidates
are computed by the arithmetic of the host, whatever it rounds to. -/
theorem getAxisExtent_from_data (host : Host) (self : DataLayer) (dimension : String)
    (axis : AxisLayout) (field : String) (vals : List JSNumber) (m M : JSNumber)
    (hd : (dimension = "x" ∧ self.layout.x_axis = some axis) ∨
      (dimension = "y" ∧ self.layout.y_axis = some axis))
    (hfield : axis.field = some field) (hname : field ≠ "")
    (hdata : self.data ≠ [])
    (hvals : self.data.map (fun d => toNumber host (d.get field)) = vals.map some)
    (hfc : axis.floor = none ∨ axis.ceiling = none)
    (hm : m ∈ vals ∧ ∀ v ∈ vals, m ≤ v) (hM : M ∈ vals ∧ ∀ v ∈ vals, v ≤ M) :
    ∃ lo hi, (self.getAxisExtent host (.str dimension)).1 = .ok [some lo, some hi] ∧
      (∀ floor, axis.floor = some floor → lo = floor) ∧
      (axis.floor = none →
        some lo ∈ extentCandidates host m M axis ∧
        ∀ x, some x ∈ extentCandidates host m M axis → lo ≤ x) ∧
      (∀ ceiling, axis.ceiling = some ceiling → hi = ceiling) ∧
      (axis.ceiling = none →
        some hi ∈ extentCandidates host m M axis ∧
        ∀ x, some x ∈ extentCandidates host m M axis → x ≤ hi) ∧
      (axis.floor = none → axis.ceiling = none →
        (∀ v ∈ vals, lo ≤ v ∧ v ≤ hi) ∧
        (∀ a b, axis.min_extent = some (some a, some b) →
          lo ≤ a ∧ a ≤ hi ∧ lo ≤ b ∧ b ≤ hi)) := by
  have hboth : (!isNaN axis.floor && !isNaN axis.ceiling) = false := by
    rcases hfc with h | h <;> simp [h, isNaN]
  have hlen : (self.data.length != 0) = true := by
    cases hdd : self.data with
    | nil => exact absurd hdd hdata
    | cons _ _ => rfl
  have hrun : (self.getAxisExtent host (.str dimension)).1 =
      .ok (self.dataExtent host axis field) := by
    rw [getAxisExtent_of_axis host self dimension axis hd, hboth]
    simp [hfield, hname, hlen]
  have hhead : ∃ rest, extentCandidates host m M axis = some m :: rest := ⟨_, rfl⟩
  obtain ⟨rest, hrest⟩ := hhead
  have hmS : some m ∈ extentCandidates host m M axis := by simp [extentCandidates]
  have hMS : some M ∈ extentCandidates host m M axis := by simp [extentCandidates]
  obtain ⟨lo, hi, he, h1, h2, h3, h4⟩ := d3_extent_cons_some m rest
  rw [← hrest] at he h1 h2 h3 h4
  rw [hrun, dataExtent_eq host self axis field vals m M hvals hm hM, he]
  have hbounds : ∀ v ∈ vals, lo ≤ v ∧ v ≤ hi := fun v hv =>
    ⟨le_trans (h2 m hmS) (hm.2 v hv), le_trans (hM.2 v hv) (h4 M hMS)⟩
  have hext : ∀ a b, axis.min_extent = some (some a, some b) →
      lo ≤ a ∧ a ≤ hi ∧ lo ≤ b ∧ b ≤ hi := by
    intro a b hab
    have ha : some a ∈ extentCandidates host m M axis := by simp [extentCandidates, hab]
    have hb : some b ∈ extentCandidates host m M axis := by simp [extentCandidates, hab]
    exact ⟨h2 a ha, h4 a ha, h2 b hb, h4 b hb⟩
  rcases hf : axis.floor with _ | floor <;> rcases hc : axis.ceiling with _ | ceiling
  · refine ⟨lo, hi, by simp [isNaN], by simp, fun _ => ⟨h1, h2⟩, by simp, fun _ => ⟨h3, h4⟩,
      fun _ _ => ⟨hbounds, hext⟩⟩
  · refine ⟨lo, ceiling, by simp [isNaN], by simp, fun _ => ⟨h1, h2⟩, by simp, by simp, by simp⟩
  · refine ⟨floor, hi, by simp [isNaN], by simp, by simp, by simp, fun _ => ⟨h3, h4⟩, by simp⟩
  · rw [hf, hc] at hfc
    rcases hfc with h | h <;> cases h

theorem lookup_filter_ne (l : List (String × Tooltip)) (key other : String) :
    (l.filter (fun kv => kv.1 != key)).lookup other =
      if other = key then none else l.lookup other := by
  induction l with
  | nil => simp
  | cons kv rest ih =>
    obtain ⟨k, v⟩ := kv
    by_cases hk : k = key
    · have hk1 : ¬ ((k != key) = true) := by simpa using hk
      rw [List.filter_cons, if_neg hk1, ih]
      by_cases ho : other = key
      · simp only [ho, if_true]
      · have : (other == k) = false := by simpa [hk] using ho
        simp only [ho, if_false, List.lookup_cons, this]
    · have hk1 : (k != key) = true := by simpa using hk
      rw [List.filter_cons, if_pos hk1, List.lookup_cons, List.lookup_cons, ih]
      by_cases ho : other = k
      · subst ho; simp [hk]
      · have : (other == k) = false := by simpa using ho
        simp [this]

theorem destroyTooltip_str (self : DataLayer) (key : String) :
    self.destroyTooltip (.str key) =
      (.ok (), { self with tooltips := self.tooltips.filter (fun kv => kv.1 != key) }) := by
  cases hl : self.tooltips.lookup key with
  | some t => simp only [DataLayer.destroyTooltip, hl]
  | none =>
    have hall : ∀ kv ∈ self.tooltips, (kv.1 != key) = true := by
      intro kv hkv
      have h1 : key ≠ kv.1 := by simpa using List.lookup_eq_none_iff.mp hl kv hkv
      simpa using h1.symm
    simp only [DataLayer.destroyTooltip, hl, List.filter_eq_self.mpr hall]

theorem foldlM_destroyAllStep : ∀ (keys : List String) (layer : DataLayer),
    (∀ kv ∈ layer.tooltips, kv.1 ∈ keys) →
    ∃ after, keys.foldlM DataLayer.destroyAllStep layer = .ok after ∧ after.tooltips = []
  | [], layer, hk => by
    refine ⟨layer, rfl, ?_⟩
    apply List.eq_nil_iff_forall_not_mem.mpr
    intro kv hkv
    simpa using hk kv hkv
  | k :: keys, layer, hk => by
    have hstep : DataLayer.destroyAllStep layer k =
        .ok { layer with tooltips := layer.tooltips.filter (fun kv => kv.1 != k) } := by
      unfold DataLayer.destroyAllStep
      cases hl : layer.tooltips.lookup k with
      | some t => simp only [destroyTooltip_str]
      | none =>
        have := destroyTooltip_str layer k
        simp only [DataLayer.destroyTooltip, hl] at this
        simp only [Prod.mk.injEq, true_and] at this
        rw [← this]
    rw [List.foldlM_cons, hstep]
    apply foldlM_destroyAllStep keys
    intro kv hkv
    have hmem := List.mem_filter.mp hkv
    have hne : kv.1 ≠ k := by simpa using hmem.2
    rcases List.mem_cons.mp (hk kv hmem.1) with h | h
    · exact absurd h hne
    · exact h

/-- C9: `destroyTooltip(id)` throws its message exactly when `id` is not a string and
then leaves the layer as it was; for a string id it returns with the record of that id
gone from `this.tooltips` (nothing changes when there was none) and every other record
as before; after `destroyAllTooltips()` the map is empty. -/
theorem destroyTooltip_deletes_only_id (self : DataLayer) :
    (∀ id : JSVal, (∀ key, id ≠ .str key) →
      self.destroyTooltip id = (.error "Unable to destroy tooltip: id is not a string", self)) ∧
    (∀ key : String, ∃ after, self.destroyTooltip (.str key) = (.ok (), after) ∧
      after.tooltips.lookup key = none ∧
      (∀ other, other ≠ key → after.tooltips.lookup other = self.tooltips.lookup other) ∧
      (self.tooltips.lookup key = none → after = self)) ∧
    (∃ after, self.destroyAllTooltips = .ok after ∧ after.tooltips = []) := by
  refine ⟨?_, ?_, ?_⟩
  · intro id hid
    cases id with
    | str key => exact absurd rfl (hid key)
    | _ => rfl
  · intro key
    refine ⟨_, destroyTooltip_str self key, ?_, ?_, ?_⟩
    · simp [lookup_filter_ne]
    · intro other ho
      simp [lookup_filter_ne, ho]
    · intro hl
      have h1 := destroyTooltip_str self key
      simp only [DataLayer.destroyTooltip, hl, Prod.mk.injEq, true_and] at h1
      exact h1.symm
  · apply foldlM_destroyAllStep
    intro kv hkv
    exact List.mem_map_of_mem _ hkv

theorem show_tooltip_eq_null (self : DataLayer) (id : JSVal) (tooltip : TooltipLayout)
    (h s : List String) (ht : self.layout.tooltip = some tooltip)
    (hh : self.state.highlighted = some h) (hs : self.state.selected = some s) :
    self.show_tooltip id = .ok (some .null) := by
  unfold DataLayer.show_tooltip
  simp only [ht, hh, hs, resolveStatus_eq_null]
  rfl

/-- C8: on the sample layer the show directive is the single status `highlighted`,
there is no hide directive and the element id is in the highlighted array, yet the
decision `show_tooltip` that `showOrHideTooltip` computes is `null`, which is not true:
an array directive has `typeof` `"object"`, so `resolveStatus` never reads the status. -/
theorem show_tooltip_null_for_highlighted_id :
    (∃ tooltip, sampleLayer.layout.tooltip = some tooltip ∧
      tooltip.show_.typeof = "string" ∧ tooltip.hide.typeof = "undefined") ∧
    indexOf ["plot.panel.positions.rs1"] (.str "plot.panel.positions.rs1") = 0 ∧
    sampleLayer.show_tooltip (.str "plot.panel.positions.rs1") = .ok (some .null) ∧
    JSVal.null.truthy = false :=
  ⟨⟨_, rfl, rfl, rfl⟩, by decide,
    show_tooltip_eq_null sampleLayer _ _ _ _ rfl rfl rfl, rfl⟩

/-- C10: on the sample layer, which is selectable and whose selected ids `a` and `b`
are both absent from the page, `enableTooltips` returns with `b` still in the selected
array: the `splice` at index 0 moves `b` to index 0, and `forEach` goes on to index 1. -/
theorem enableTooltips_keeps_absent_id :
    sampleHost.select "#a" = .ok none ∧ sampleHost.select "#b" = .ok none ∧
    sampleLayer.state.selected = some ["a", "b"] ∧
    ∃ after, sampleLayer.enableTooltips sampleHost (.obj []) = .ok after ∧
      after.state.selected = some ["b"] :=
  ⟨rfl, rfl, rfl, _, rfl, rfl⟩

/-! ## The theorems at the sample plot -/

theorem toggleElementStatus_tracks_id_sample :
    sampleLayer.state.get "selected" = some ["a", "b"] ∧
    sampleHost.select ("#" ++ sampleLayer.hoverId "c") = .ok none ∧
    (∃ layer, sampleLayer.toggleElementStatus sampleHost (.str "selected") (.str "c") .undefined =
        (.ok (), layer) ∧
      layer.state.get "selected" = some ["a", "b", "c"]) := by
  have key := toggleElementStatus_tracks_id sampleHost sampleLayer "selected" "c"
    ["plot.panel.positions.rs1"] ["a", "b"] ["a", "b"] none rfl rfl (Or.inr rfl) rfl rfl
  obtain ⟨layer, ys, h1, h2, _, h4, _⟩ := key.1 .undefined (Or.inr rfl)
  refine ⟨rfl, rfl, layer, h1, ?_⟩
  rw [h2, h4]
  decide

theorem toggleAllElementStatus_false_empties_sample :
    sampleLayer.state.highlighted = some ["plot.panel.positions.rs1"] ∧
    sampleLayer.state.selected = some ["a", "b"] ∧
    ∃ layer, sampleLayer.unselectAllElements sampleHost = (.ok (), layer) ∧
      layer.state.selected = some [] ∧
      layer.state.highlighted = some ["plot.panel.positions.rs1"] := by
  have hsel : ∀ id ∈ ["a", "b"],
      ∃ found, sampleHost.select ("#" ++ sampleLayer.hoverId id) = .ok found := by
    intro id hid
    have h1 : id = "a" ∨ id = "b" := by simpa using hid
    rcases h1 with rfl | rfl <;> exact ⟨none, rfl⟩
  obtain ⟨layer, _, h2, h3, h4⟩ :=
    (toggleAllElementStatus_false_empties sampleHost sampleLayer _ _ rfl rfl).2 hsel
  exact ⟨rfl, rfl, layer, h2, h3, h4⟩

theorem toggleAllElementStatus_true_adds_sample :
    sampleLayer.state.get "highlighted" = some ["plot.panel.positions.rs1"] ∧
    ∃ layer ys, sampleLayer.highlightAllElements sampleHost .undefined = (.ok (), layer) ∧
      layer.state.highlighted = some ys ∧
      "plot.panel.positions.rs1" ∈ ys ∧ "plot.panel.positions.rs2" ∈ ys := by
  have hdata : ∀ e ∈ sampleLayer.data,
      e = [("id", .str "rs:1"), ("position", .num 1)] ∨
      e = [("id", .str "rs2"), ("position", .num 3)] := by
    intro e he
    simpa [sampleLayer] using he
  have id1 : sampleLayer.getElementId [("id", .str "rs:1"), ("position", .num 1)] =
      .ok "plot.panel.positions.rs1" := by rfl
  have id2 : sampleLayer.getElementId [("id", .str "rs2"), ("position", .num 3)] =
      .ok "plot.panel.positions.rs2" := by rfl
  have hid : ∀ e ∈ sampleLayer.data,
      ∃ v, e.get (sampleLayer.layout.id_field.getD "undefined") = some (.str v) := by
    intro e he
    rcases hdata e he with rfl | rfl
    · exact ⟨"rs:1", rfl⟩
    · exact ⟨"rs2", rfl⟩
  have hsel : ∀ e ∈ sampleLayer.data, ∀ i, sampleLayer.getElementId e = .ok i →
      i ∉ ["plot.panel.positions.rs1"] →
      ∃ found, sampleHost.select ("#" ++ sampleLayer.hoverId i) = .ok found := by
    intro e he i hi _
    rcases hdata e he with rfl | rfl
    · rw [id1] at hi; cases hi; exact ⟨none, rfl⟩
    · rw [id2] at hi; cases hi; exact ⟨none, rfl⟩
  obtain ⟨layer, ys, added, _, h2, _, h4, h5, _⟩ :=
    toggleAllElementStatus_true_adds sampleHost sampleLayer "highlighted" _ _ _ rfl rfl
      (Or.inl rfl) rfl hid hsel .undefined (Or.inr rfl)
  refine ⟨rfl, layer, ys, h2 rfl, h4, ?_, ?_⟩
  · obtain ⟨i, hi, hmem⟩ := h5 [("id", .str "rs:1"), ("position", .num 1)]
      (by simp [sampleLayer])
    rw [id1] at hi; cases hi; exact hmem
  · obtain ⟨i, hi, hmem⟩ := h5 [("id", .str "rs2"), ("position", .num 3)]
      (by simp [sampleLayer])
    rw [id2] at hi; cases hi; exact hmem

theorem getAxisExtent_floor_and_ceiling_sample :
    (sampleLayer.getAxisExtent sampleHost (.str "y")).1 = .ok [some 0, some 10] :=
  getAxisExtent_floor_and_ceiling sampleHost sampleLayer "y"
    { floor := some 0, ceiling := some 10 } 0 10 (Or.inr ⟨rfl, rfl⟩) rfl rfl

theorem getAxisExtent_state_fallback_sample :
    (emptyLayer.getAxisExtent sampleHost (.str "x")).1 = .ok [some 100, some 200] ∧
    (emptyLayer.getAxisExtent sampleHost (.str "y")).1 = .ok [] :=
  ⟨(getAxisExtent_state_fallback sampleHost emptyLayer "x" {} (Or.inl ⟨rfl, rfl⟩)
      (Or.inl rfl) (Or.inl rfl)).1 100 200 rfl rfl rfl,
    (getAxisExtent_state_fallback sampleHost emptyLayer "y" {} (Or.inr ⟨rfl, rfl⟩)
      (Or.inl rfl) (Or.inl rfl)).2 (Or.inl rfl)⟩

theorem JSNumber.fin_le_fin (a b : ℚ) : JSNumber.fin a ≤ JSNumber.fin b ↔ a ≤ b := by
  show JSNumber.toExt (.fin a) ≤ JSNumber.toExt (.fin b) ↔ a ≤ b
  simp [JSNumber.toExt]

theorem getAxisExtent_from_data_sample :
    sampleLayer.data.map (fun d => toNumber sampleHost (d.get "position")) = [some 1, some 3] ∧
    extentCandidates sampleHost 1 3
        { field := some "position", lower_buffer := some 1,
          min_extent := some (some 0, some 2) } =
      [some 1, some 3, some (.fin (-1)), some 0, some 2] ∧
    (sampleLayer.getAxisExtent sampleHost (.str "x")).1 = .ok [some (.fin (-1)), some 3] := by
  have hS : extentCandidates sampleHost 1 3
      { field := some "position", lower_buffer := some 1,
        min_extent := some (some 0, some 2) } =
      [some (.fin 1), some (.fin 3), some (.fin (-1)), some (.fin 0), some (.fin 2)] := by
    have e1 : ((1 : ℚ) - (3 - 1) * 1) = -1 := by norm_num
    show [some (JSNumber.fin 1), some (.fin 3), some (.fin (1 - (3 - 1) * 1)),
      some (.fin 0), some (.fin 2)] = _
    rw [e1]
  have h13 : (1 : JSNumber) ≤ 3 := (JSNumber.fin_le_fin 1 3).mpr (by norm_num)
  obtain ⟨lo, hi, hrun, _, hlo, _, hhi, _⟩ :=
    getAxisExtent_from_data sampleHost sampleLayer "x"
      { field := some "position", lower_buffer := some 1, min_extent := some (some 0, some 2) }
      "position" [1, 3] 1 3 (Or.inl ⟨rfl, rfl⟩) rfl (by decide) (by simp [sampleLayer]) rfl
      (Or.inl rfl)
      ⟨by simp, by intro v hv; rcases List.mem_pair.mp hv with rfl | rfl
                   · exact le_refl _
                   · exact h13⟩
      ⟨by simp, by intro v hv; rcases List.mem_pair.mp hv with rfl | rfl
                   · exact h13
                   · exact le_refl _⟩
  refine ⟨rfl, hS, ?_⟩
  obtain ⟨hmem, hle⟩ := hlo rfl
  obtain ⟨hmem2, hge⟩ := hhi rfl
  rw [hS] at hmem hle hmem2 hge
  have e1 : lo = .fin (-1) := by
    have hb := hle (.fin (-1)) (by simp)
    simp only [List.mem_cons, Option.some.injEq, List.mem_singleton, List.not_mem_nil,
      or_false] at hmem
    rcases hmem with h | h | h | h | h
    · rw [h, JSNumber.fin_le_fin] at hb; norm_num at hb
    · rw [h, JSNumber.fin_le_fin] at hb; norm_num at hb
    · exact h
    · rw [h, JSNumber.fin_le_fin] at hb; norm_num at hb
    · rw [h, JSNumber.fin_le_fin] at hb; norm_num at hb
  have e2 : hi = .fin 3 := by
    have hb := hge (.fin 3) (by simp)
    simp only [List.mem_cons, Option.some.injEq, List.mem_singleton, List.not_mem_nil,
      or_false] at hmem2
    rcases hmem2 with h | h | h | h | h
    · rw [h, JSNumber.fin_le_fin] at hb; norm_num at hb
    · exact h
    · rw [h, JSNumber.fin_le_fin] at hb; norm_num at hb
    · rw [h, JSNumber.fin_le_fin] at hb; norm_num at hb
    · rw [h, JSNumber.fin_le_fin] at hb; norm_num at hb
  rw [hrun, e1, e2]
  rfl

theorem getAxisExtent_throws_only_invalid_dimension_sample :
    (sampleLayer.getAxisExtent sampleHost (.str "z") =
      (.error "Invalid dimension identifier passed to LocusZoom.DataLayer.getAxisExtent()",
        sampleLayer)) ∧
    (sampleLayer.getAxisExtent sampleHost (.num 1) =
      (.error "Invalid dimension identifier passed to LocusZoom.DataLayer.getAxisExtent()",
        sampleLayer)) ∧
    (∃ extent, sampleLayer.getAxisExtent sampleHost (.str "x") = (.ok extent, sampleLayer)) :=
  ⟨(getAxisExtent_throws_only_invalid_dimension sampleHost sampleLayer).1 (.str "z")
      (fun h => absurd (JSVal.str.inj h) (by decide))
      (fun h => absurd (JSVal.str.inj h) (by decide)),
    (getAxisExtent_throws_only_invalid_dimension sampleHost sampleLayer).1 (.num 1)
      (fun h => by cases h) (fun h => by cases h),
    (getAxisExtent_throws_only_invalid_dimension sampleHost sampleLayer).2 _ _ rfl rfl
      (.str "x") (Or.inl rfl)⟩

theorem destroyTooltip_deletes_only_id_sample :
    (tooltipLayer.destroyTooltip (.num 3) =
      (.error "Unable to destroy tooltip: id is not a string", tooltipLayer)) ∧
    (tooltipLayer.destroyTooltip (.str "a")).2.tooltips.map (fun kv => kv.1) = ["b"] ∧
    (∃ after, tooltipLayer.destroyAllTooltips = .ok after ∧ after.tooltips = []) :=
  ⟨(destroyTooltip_deletes_only_id tooltipLayer).1 (.num 3) (fun _ h => by cases h), rfl,
    (destroyTooltip_deletes_only_id tooltipLayer).2.2⟩

end LocusZoom
